import Mathlib

/-!
# Authentication utility functions of `source4/auth/ntlm/auth_util.c`

A shallow embedding of `map_user_info`, `map_user_info_cracknames` and
`encrypt_user_info`, and the properties of the identity mapper and of the
password state engine that follow from the code.

Conventions of the embedding:

* a C string is the list of its characters (the terminating NUL is implicit);
  string pointers are non-NULL, a NULL `domain_name` being represented by the
  empty string, which the code treats the same way;
* talloc allocation never fails, so the `NT_STATUS_NO_MEMORY` returns that
  only guard an allocation do not appear;
* the functions the file calls but does not define (hash primitives, charset
  helpers, the challenge source, the directory resolver) are parameters.
-/

set_option autoImplicit false

namespace AuthUtil

/-! ## Data model -/

/-- A NUL-terminated C string, as the list of its characters. -/
abbrev CString := List Char

/-- A `DATA_BLOB`: a sequence of bytes. -/
abbrev DATA_BLOB := List Nat

/-- The status codes the file returns, and any other code a collaborator may
hand back. -/
inductive NTSTATUS where
  | NT_STATUS_OK
  | NT_STATUS_NO_MEMORY
  | NT_STATUS_NO_SUCH_USER
  | NT_STATUS_INTERNAL_ERROR
  | NT_STATUS_INVALID_PARAMETER
  | NT_STATUS_NOT_IMPLEMENTED
  | other (code : Nat)
  deriving DecidableEq, Repr

/-- The macro `NT_STATUS_IS_OK`. -/
def NT_STATUS_IS_OK (s : NTSTATUS) : Bool :=
  decide (s = NTSTATUS.NT_STATUS_OK)

/-- A `WERROR` value; zero is `WERR_OK`. -/
abbrev WERROR := Nat

/-- The macro `W_ERROR_IS_OK`. -/
def W_ERROR_IS_OK (w : WERROR) : Bool :=
  decide (w = 0)

/-- The enumeration `auth_password_state`. -/
inductive auth_password_state where
  | AUTH_PASSWORD_PLAIN
  | AUTH_PASSWORD_HASH
  | AUTH_PASSWORD_RESPONSE
  deriving DecidableEq, Repr

/-- The structure `samr_Password`: a 16 byte hash. -/
structure samr_Password where
  hash : List Nat
  deriving DecidableEq, Repr

/-- The union `password` of `auth_usersupplied_info`: exactly one member is
stored.  The two `hash` members are pointers, `none` being NULL. -/
inductive auth_password where
  | plaintext (p : CString)
  | hash (lanman : Option samr_Password) (nt : Option samr_Password)
  | response (lanman : DATA_BLOB) (nt : DATA_BLOB)
  deriving DecidableEq, Repr

/-- The anonymous structure of the members `client` and `mapped`. -/
structure auth_names where
  account_name : CString
  domain_name : CString
  deriving DecidableEq, Repr

/-- The structure `auth_usersupplied_info`, with the members the file reads or
writes.  `password_state` is the stage tag and `password` the union it
describes; the code keeps the two in separate members. -/
structure auth_usersupplied_info where
  workstation_name : CString
  mapped_state : Bool
  client : auth_names
  mapped : auth_names
  password_state : auth_password_state
  password : auth_password
  deriving DecidableEq, Repr

/-- Outcome of a call: `ok out` is a return of `NT_STATUS_OK` with `out`
stored through the output pointer, `err s` a return of status `s` with nothing
stored, and `undefined` an execution whose behaviour C leaves undefined (a
NULL dereference, a read of a union member that is not the stored one, an
access outside an allocation). -/
inductive Result (α : Type) where
  | ok (out : α)
  | err (status : NTSTATUS)
  | undefined
  deriving DecidableEq, Repr

/-! ## Collaborators -/

/-- The functions and constants used by the file and defined elsewhere. -/
structure Externals where
  /-- `E_deshash`: whether the password is LM-representable, and the 16 bytes
  written to the output buffer. -/
  E_deshash : CString → Bool × List Nat
  /-- `E_md4hash`: the 16 bytes written to the output buffer. -/
  E_md4hash : CString → List Nat
  /-- `SMBOWFencrypt`: the 24 bytes written to the output buffer, from a 16
  byte hash and the 8 byte challenge. -/
  SMBOWFencrypt : List Nat → List Nat → DATA_BLOB
  /-- `NTLMv2_generate_names_blob`, from the netbios name and the workgroup. -/
  NTLMv2_generate_names_blob : CString → CString → DATA_BLOB
  /-- `SMBNTLMv2encrypt_hash` from account name, domain name, NT hash,
  challenge and names blob: `none` is a return of false, otherwise the LMv2
  response, the NTLMv2 response and the two session keys. -/
  SMBNTLMv2encrypt_hash : CString → CString → List Nat → DATA_BLOB → DATA_BLOB →
    Option (DATA_BLOB × DATA_BLOB × DATA_BLOB × DATA_BLOB)
  /-- Contents of the buffer of `data_blob_talloc(mem_ctx, NULL, n)`, which
  is allocated and not initialised. -/
  data_blob_talloc_fresh : Nat → DATA_BLOB
  /-- `strlen_m`, the charset-aware length of a string. -/
  strlen_m : CString → Nat
  /-- `werror_to_ntstatus`. -/
  werror_to_ntstatus : WERROR → NTSTATUS
  /-- Integer value of each enumerator of `auth_password_state`. -/
  password_state_value : auth_password_state → Nat

/-- The configuration read through `lpcfg_client_ntlmv2_auth`,
`lpcfg_client_lanman_auth`, `lpcfg_netbios_name` and `lpcfg_workgroup`. -/
structure loadparm_context where
  client_ntlmv2_auth : Bool
  client_lanman_auth : Bool
  netbios_name : CString
  workgroup : CString

/-- The structure `auth4_context`: the configuration and the challenge source.
`challenge n` is what the call number `n` of `auth_get_challenge` returns
(status, and contents of `chal`); `calls` counts the calls made so far. -/
structure auth4_context where
  lp_ctx : loadparm_context
  challenge : Nat → NTSTATUS × List Nat
  calls : Nat

/-- One call of `auth_get_challenge`: the status, the contents of `chal`, and
the context after the call. -/
def auth_get_challenge (auth_context : auth4_context) :
    NTSTATUS × List Nat × auth4_context :=
  ((auth_context.challenge auth_context.calls).1,
   (auth_context.challenge auth_context.calls).2,
   { auth_context with calls := auth_context.calls + 1 })

/-- The function `auth_get_challenge_not_implemented`. -/
def auth_get_challenge_not_implemented : NTSTATUS :=
  NTSTATUS.NT_STATUS_NOT_IMPLEMENTED

/-- The enumeration `drsuapi_DsNameStatus`: the five values the file names,
and any other value. -/
inductive drsuapi_DsNameStatus where
  | DRSUAPI_DS_NAME_STATUS_OK
  | DRSUAPI_DS_NAME_STATUS_NOT_FOUND
  | DRSUAPI_DS_NAME_STATUS_DOMAIN_ONLY
  | DRSUAPI_DS_NAME_STATUS_NOT_UNIQUE
  | DRSUAPI_DS_NAME_STATUS_RESOLVE_ERROR
  | other (value : Nat)
  deriving DecidableEq, Repr

/-- The two name formats of `drsuapi_DsNameFormat` the file uses. -/
inductive drsuapi_DsNameFormat where
  | DRSUAPI_DS_NAME_FORMAT_USER_PRINCIPAL
  | DRSUAPI_DS_NAME_FORMAT_NT4_ACCOUNT
  deriving DecidableEq, Repr

/-- The structure `drsuapi_DsNameInfo1`, with the members the file reads. -/
structure drsuapi_DsNameInfo1 where
  status : drsuapi_DsNameStatus
  result_name : CString
  deriving DecidableEq, Repr

/-- The directory behind `sam_ctx`: what `DsCrackNameOneName` returns for
the format flags, the offered format, the desired format and the name. -/
structure ldb_context where
  DsCrackNameOneName : Nat → drsuapi_DsNameFormat → drsuapi_DsNameFormat → CString →
    WERROR × drsuapi_DsNameInfo1

/-- Modelled from the spec: `strchr_m` (the charset library, outside this
file) finds the first occurrence of a character; the result is its index, or
`none` for a NULL return. -/
def strchr_m : CString → Char → Option Nat
  | [], _ => none
  | x :: xs, c => if x = c then some 0 else (strchr_m xs c).map (· + 1)

/-- The domain separator, a backslash. -/
def sep : Char := Char.ofNat 92

/-! ## The identity mapper -/

/-- Lines 197-216 and 278-297: the output structure is a copy of the input
with `mapped_state` set and the two mapped names stored. -/
def fill_user_info_mapped (user_info : auth_usersupplied_info)
    (domain account_name : CString) : auth_usersupplied_info :=
  { user_info with
    mapped_state := true
    mapped := { account_name := account_name, domain_name := domain } }

/-- The local `domain_name` of `map_user_info_cracknames` (lines 131-136): the
name handed to the resolver when the account name has no realm separator. -/
def cracknames_domain_name (default_domain : CString)
    (user_info : auth_usersupplied_info) : CString :=
  if user_info.client.domain_name ≠ [] then
    user_info.client.domain_name ++ [sep]
  else
    default_domain

/-- Lines 164-172: the copy of `result_name` after the test of the byte at
index `strlen_m(domain)-1`.  The index is computed in `size_t`, so a length of
zero gives an index outside the allocation, as does any index beyond the
terminating NUL; the NUL itself is not a separator.  Storing a NUL at the index
cuts the string there. -/
def cracknames_strip (ext : Externals) (domain : CString) : Option CString :=
  let n := ext.strlen_m domain
  if n = 0 then none
  else
    match domain.get? (n - 1) with
    | some c => if c = sep then some (domain.take (n - 1)) else some domain
    | none => if n - 1 = domain.length then some domain else none

/-- The function `map_user_info_cracknames`. -/
def map_user_info_cracknames (ext : Externals) (sam_ctx : ldb_context)
    (default_domain : CString) (user_info : auth_usersupplied_info) :
    Result auth_usersupplied_info :=
  if (strchr_m user_info.client.account_name '@').isSome then
    let r := sam_ctx.DsCrackNameOneName 0
      drsuapi_DsNameFormat.DRSUAPI_DS_NAME_FORMAT_USER_PRINCIPAL
      drsuapi_DsNameFormat.DRSUAPI_DS_NAME_FORMAT_NT4_ACCOUNT
      user_info.client.account_name
    if !W_ERROR_IS_OK r.1 then
      Result.err (ext.werror_to_ntstatus r.1)
    else
      match r.2.status with
      | drsuapi_DsNameStatus.DRSUAPI_DS_NAME_STATUS_OK =>
        match strchr_m r.2.result_name sep with
        | none => Result.err NTSTATUS.NT_STATUS_NO_SUCH_USER
        | some i =>
          Result.ok (fill_user_info_mapped user_info
            (r.2.result_name.take i) (r.2.result_name.drop (i + 1)))
      | drsuapi_DsNameStatus.DRSUAPI_DS_NAME_STATUS_NOT_FOUND =>
        Result.err NTSTATUS.NT_STATUS_NO_SUCH_USER
      | drsuapi_DsNameStatus.DRSUAPI_DS_NAME_STATUS_DOMAIN_ONLY =>
        Result.err NTSTATUS.NT_STATUS_NO_SUCH_USER
      | drsuapi_DsNameStatus.DRSUAPI_DS_NAME_STATUS_NOT_UNIQUE =>
        Result.err NTSTATUS.NT_STATUS_NO_SUCH_USER
      | drsuapi_DsNameStatus.DRSUAPI_DS_NAME_STATUS_RESOLVE_ERROR =>
        Result.err NTSTATUS.NT_STATUS_NO_SUCH_USER
      | drsuapi_DsNameStatus.other _ =>
        Result.err NTSTATUS.NT_STATUS_NO_SUCH_USER
  else
    let r := sam_ctx.DsCrackNameOneName 0
      drsuapi_DsNameFormat.DRSUAPI_DS_NAME_FORMAT_NT4_ACCOUNT
      drsuapi_DsNameFormat.DRSUAPI_DS_NAME_FORMAT_NT4_ACCOUNT
      (cracknames_domain_name default_domain user_info)
    if !W_ERROR_IS_OK r.1 then
      Result.err (ext.werror_to_ntstatus r.1)
    else
      match r.2.status with
      | drsuapi_DsNameStatus.DRSUAPI_DS_NAME_STATUS_OK
      | drsuapi_DsNameStatus.DRSUAPI_DS_NAME_STATUS_DOMAIN_ONLY =>
        match cracknames_strip ext r.2.result_name with
        | none => Result.undefined
        | some domain =>
          Result.ok (fill_user_info_mapped user_info domain
            user_info.client.account_name)
      | drsuapi_DsNameStatus.DRSUAPI_DS_NAME_STATUS_NOT_FOUND =>
        Result.ok (fill_user_info_mapped user_info default_domain
          user_info.client.account_name)
      | drsuapi_DsNameStatus.DRSUAPI_DS_NAME_STATUS_NOT_UNIQUE =>
        Result.err NTSTATUS.NT_STATUS_NO_SUCH_USER
      | drsuapi_DsNameStatus.DRSUAPI_DS_NAME_STATUS_RESOLVE_ERROR =>
        Result.err NTSTATUS.NT_STATUS_NO_SUCH_USER
      | drsuapi_DsNameStatus.other _ =>
        Result.err NTSTATUS.NT_STATUS_NO_SUCH_USER

/-- The function `map_user_info`; `sam_ctx` is `none` for a NULL pointer. -/
def map_user_info (ext : Externals) (sam_ctx : Option ldb_context)
    (default_domain : CString) (user_info : auth_usersupplied_info) :
    Result auth_usersupplied_info :=
  match sam_ctx with
  | some sam => map_user_info_cracknames ext sam default_domain user_info
  | none =>
    let account_name := user_info.client.account_name
    if user_info.client.domain_name ≠ [] then
      Result.ok (fill_user_info_mapped user_info user_info.client.domain_name
        account_name)
    else if (strchr_m user_info.client.account_name '@').isSome then
      match strchr_m account_name '@' with
      | none => Result.err NTSTATUS.NT_STATUS_INTERNAL_ERROR
      | some d =>
        Result.ok (fill_user_info_mapped user_info (account_name.drop (d + 1))
          (account_name.take d))
    else
      Result.ok (fill_user_info_mapped user_info default_domain account_name)

/-! ## The password state engine -/

/-- The assignment `user_info_temp->mapped_state = to_state` (lines 338 and
404): an enumerator stored in a `bool` is true when its value is not zero. -/
def mapped_state_of (ext : Externals) (to_state : auth_password_state) : Bool :=
  decide (ext.password_state_value to_state ≠ 0)

/-- The arm `case AUTH_PASSWORD_HASH` of the outer switch (lines 388-430). -/
def encrypt_user_info_to_hash (ext : Externals) (to_state : auth_password_state)
    (user_info_in : auth_usersupplied_info) : Result auth_usersupplied_info :=
  match user_info_in.password_state with
  | auth_password_state.AUTH_PASSWORD_PLAIN =>
    match user_info_in.password with
    | auth_password.plaintext plaintext =>
      let user_info_temp :=
        { user_info_in with mapped_state := mapped_state_of ext to_state }
      let lanman := ext.E_deshash plaintext
      let nt := ext.E_md4hash plaintext
      Result.ok { user_info_temp with
        password := auth_password.hash
          (if lanman.1 then some { hash := lanman.2 } else none)
          (some { hash := nt }) }
    | _ => Result.undefined
  | auth_password_state.AUTH_PASSWORD_HASH => Result.ok user_info_in
  | auth_password_state.AUTH_PASSWORD_RESPONSE =>
    Result.err NTSTATUS.NT_STATUS_INVALID_PARAMETER

/-- The block `case AUTH_PASSWORD_HASH` of the inner switch of the arm
`case AUTH_PASSWORD_RESPONSE` (lines 326-383).  In the legacy branch `blob` is
the buffer of the NT response; the second `SMBOWFencrypt` call writes to
`blob.data` again, and `lm_blob` is stored as it was allocated. -/
def encrypt_user_info_hash_to_response (ext : Externals)
    (auth_context : auth4_context) (to_state : auth_password_state)
    (user_info_in : auth_usersupplied_info) :
    Result auth_usersupplied_info × auth4_context :=
  let user_info_temp :=
    { user_info_in with mapped_state := mapped_state_of ext to_state }
  let c := auth_get_challenge auth_context
  if !NT_STATUS_IS_OK c.1 then
    (Result.err c.1, c.2.2)
  else
    match user_info_in.password with
    | auth_password.hash lanman (some nt) =>
      if c.2.2.lp_ctx.client_ntlmv2_auth then
        let names_blob := ext.NTLMv2_generate_names_blob
          c.2.2.lp_ctx.netbios_name c.2.2.lp_ctx.workgroup
        match ext.SMBNTLMv2encrypt_hash user_info_in.client.account_name
            user_info_in.client.domain_name nt.hash c.2.1 names_blob with
        | none => (Result.err NTSTATUS.NT_STATUS_NO_MEMORY, c.2.2)
        | some (lmv2_response, ntlmv2_response, _, _) =>
          (Result.ok { user_info_temp with
            password := auth_password.response lmv2_response ntlmv2_response },
           c.2.2)
      else
        let blob := ext.SMBOWFencrypt nt.hash c.2.1
        match c.2.2.lp_ctx.client_lanman_auth, lanman with
        | true, some lm =>
          let lm_blob := ext.data_blob_talloc_fresh 24
          let blob := ext.SMBOWFencrypt lm.hash c.2.1
          (Result.ok { user_info_temp with
            password := auth_password.response lm_blob blob }, c.2.2)
        | _, _ =>
          (Result.ok { user_info_temp with
            password := auth_password.response blob blob }, c.2.2)
    | _ => (Result.undefined, c.2.2)

/-- The function `encrypt_user_info`.  Its one recursive call, with target
`AUTH_PASSWORD_HASH`, runs the arm `encrypt_user_info_to_hash`. -/
def encrypt_user_info (ext : Externals) (auth_context : auth4_context)
    (to_state : auth_password_state) (user_info_in : auth_usersupplied_info) :
    Result auth_usersupplied_info × auth4_context :=
  match to_state with
  | auth_password_state.AUTH_PASSWORD_RESPONSE =>
    match user_info_in.password_state with
    | auth_password_state.AUTH_PASSWORD_PLAIN =>
      match encrypt_user_info_to_hash ext
          auth_password_state.AUTH_PASSWORD_HASH user_info_in with
      | Result.ok user_info_temp2 =>
        encrypt_user_info_hash_to_response ext auth_context to_state
          user_info_temp2
      | Result.err nt_status => (Result.err nt_status, auth_context)
      | Result.undefined => (Result.undefined, auth_context)
    | auth_password_state.AUTH_PASSWORD_HASH =>
      encrypt_user_info_hash_to_response ext auth_context to_state user_info_in
    | auth_password_state.AUTH_PASSWORD_RESPONSE =>
      (Result.ok user_info_in, auth_context)
  | auth_password_state.AUTH_PASSWORD_HASH =>
    (encrypt_user_info_to_hash ext to_state user_info_in, auth_context)
  | auth_password_state.AUTH_PASSWORD_PLAIN =>
    (Result.err NTSTATUS.NT_STATUS_INVALID_PARAMETER, auth_context)

/-- The order of the stages, `PLAIN < HASH < RESPONSE`. -/
def auth_password_state.rank : auth_password_state → Nat
  | auth_password_state.AUTH_PASSWORD_PLAIN => 0
  | auth_password_state.AUTH_PASSWORD_HASH => 1
  | auth_password_state.AUTH_PASSWORD_RESPONSE => 2

/-- The credential stored by a call, if it returned `NT_STATUS_OK`. -/
def Result.out? {α : Type} : Result α → Option α
  | Result.ok out => some out
  | _ => none

/-- The member `password.response.nt` of the credential stored by a call. -/
def response_nt (r : Result auth_usersupplied_info) : Option DATA_BLOB :=
  match r with
  | Result.ok out =>
    match out.password with
    | auth_password.response _ nt => some nt
    | _ => none
  | _ => none

/-- The member `password.response.lanman` of the credential stored by a call. -/
def response_lanman (r : Result auth_usersupplied_info) : Option DATA_BLOB :=
  match r with
  | Result.ok out =>
    match out.password with
    | auth_password.response lanman _ => some lanman
    | _ => none
  | _ => none

/-! ## Concrete inputs -/

/-- A small instance of the collaborators, on which the code can be run. -/
def ext0 : Externals where
  E_deshash := fun p => (decide (p.length ≤ 14), [2, p.length])
  E_md4hash := fun p => [4, p.length]
  SMBOWFencrypt := fun h c => h ++ c
  NTLMv2_generate_names_blob := fun _ _ => [9]
  SMBNTLMv2encrypt_hash := fun _ _ h c n => some (5 :: c, h ++ n, [6], [7])
  data_blob_talloc_fresh := fun n => List.replicate n 0
  strlen_m := fun s => s.length
  werror_to_ntstatus := fun w => NTSTATUS.other w
  password_state_value := fun s =>
    match s with
    | auth_password_state.AUTH_PASSWORD_PLAIN => 1
    | auth_password_state.AUTH_PASSWORD_HASH => 2
    | auth_password_state.AUTH_PASSWORD_RESPONSE => 3

/-- A context with NTLMv2 off, whose challenge source always answers
`1 2 3 4 5 6 7 8`; the argument says whether LAN-Manager responses are on. -/
def ctx0 (lanman_auth : Bool) : auth4_context where
  lp_ctx :=
    { client_ntlmv2_auth := false
      client_lanman_auth := lanman_auth
      netbios_name := ['S', 'R', 'V']
      workgroup := ['W', 'G'] }
  challenge := fun _ => (NTSTATUS.NT_STATUS_OK, [1, 2, 3, 4, 5, 6, 7, 8])
  calls := 0

/-- A credential with the given names and password, not yet mapped. -/
def cred0 (domain account : CString) (st : auth_password_state)
    (pw : auth_password) : auth_usersupplied_info where
  workstation_name := ['W', 'S', '1']
  mapped_state := false
  client := { account_name := account, domain_name := domain }
  mapped := { account_name := [], domain_name := [] }
  password_state := st
  password := pw

/-- A PLAIN credential with plaintext `pw`. -/
def cred_plain : auth_usersupplied_info :=
  cred0 [] ['b', 'o', 'b'] auth_password_state.AUTH_PASSWORD_PLAIN
    (auth_password.plaintext ['p', 'w'])

/-- A HASH credential with LM hash `[20]` and NT hash `[40]`. -/
def cred_hash : auth_usersupplied_info :=
  cred0 [] ['b', 'o', 'b'] auth_password_state.AUTH_PASSWORD_HASH
    (auth_password.hash (some { hash := [20] }) (some { hash := [40] }))

/-- A HASH credential with NT hash `[40]` and no LM hash. -/
def cred_hash_nolm : auth_usersupplied_info :=
  cred0 [] ['b', 'o', 'b'] auth_password_state.AUTH_PASSWORD_HASH
    (auth_password.hash none (some { hash := [40] }))

/-- A RESPONSE credential. -/
def cred_response : auth_usersupplied_info :=
  cred0 [] ['b', 'o', 'b'] auth_password_state.AUTH_PASSWORD_RESPONSE
    (auth_password.response [1] [2])

/-- The credential of the scenario: empty domain, account `bob@EXAMPLE`. -/
def cred_bob : auth_usersupplied_info :=
  cred0 [] ['b', 'o', 'b', '@', 'E', 'X', 'A', 'M', 'P', 'L', 'E']
    auth_password_state.AUTH_PASSWORD_PLAIN (auth_password.plaintext ['p', 'w'])

/-- A credential with domain `D` and account `bob@EXAMPLE`. -/
def cred_dom : auth_usersupplied_info :=
  cred0 ['D'] ['b', 'o', 'b', '@', 'E', 'X', 'A', 'M', 'P', 'L', 'E']
    auth_password_state.AUTH_PASSWORD_PLAIN (auth_password.plaintext ['p', 'w'])

/-- The default domain `WORKGROUP`. -/
def workgroup0 : CString := ['W', 'O', 'R', 'K', 'G', 'R', 'O', 'U', 'P']

/-- A resolver whose every call succeeds with the given status and name. -/
def sam0 (st : drsuapi_DsNameStatus) (name : CString) : ldb_context where
  DsCrackNameOneName := fun _ _ _ _ => (0, { status := st, result_name := name })

/-- A credential with an empty client domain and the account `bob@`. -/
def cred_bob_at : auth_usersupplied_info :=
  cred0 [] ['b', 'o', 'b', '@'] auth_password_state.AUTH_PASSWORD_PLAIN
    (auth_password.plaintext ['p', 'w'])

/-- A credential with client domain `D` and account `bob`. -/
def cred_dbob : auth_usersupplied_info :=
  cred0 ['D'] ['b', 'o', 'b'] auth_password_state.AUTH_PASSWORD_PLAIN
    (auth_password.plaintext ['p', 'w'])

/-- A resolver that records its arguments in the result name: a letter for
the offered format and one for the desired format (`U` for user principal, `N`
for NT4 account), then the name it was given, then `!`; the status is OK. -/
def sam_echo : ldb_context where
  DsCrackNameOneName := fun _ offered desired name =>
    (0, { status := drsuapi_DsNameStatus.DRSUAPI_DS_NAME_STATUS_OK
          result_name :=
            (match offered with
              | drsuapi_DsNameFormat.DRSUAPI_DS_NAME_FORMAT_USER_PRINCIPAL => 'U'
              | drsuapi_DsNameFormat.DRSUAPI_DS_NAME_FORMAT_NT4_ACCOUNT => 'N') ::
            (match desired with
              | drsuapi_DsNameFormat.DRSUAPI_DS_NAME_FORMAT_USER_PRINCIPAL => 'U'
              | drsuapi_DsNameFormat.DRSUAPI_DS_NAME_FORMAT_NT4_ACCOUNT => 'N') ::
            (name ++ ['!']) })

/-- A context with NTLMv2 off whose challenge source is
`auth_get_challenge_not_implemented`. -/
def ctx_fail : auth4_context where
  lp_ctx :=
    { client_ntlmv2_auth := false
      client_lanman_auth := false
      netbios_name := ['S', 'R', 'V']
      workgroup := ['W', 'G'] }
  challenge := fun _ => (auth_get_challenge_not_implemented, [])
  calls := 0

/-- The two calls of the composition: the credential is advanced to HASH, and
the credential stored by that call is advanced to RESPONSE with the context the
first call left. -/
def encrypt_user_info_two_step (ext : Externals) (auth_context : auth4_context)
    (user_info_in : auth_usersupplied_info) :
    Result auth_usersupplied_info × auth4_context :=
  match encrypt_user_info ext auth_context
      auth_password_state.AUTH_PASSWORD_HASH user_info_in with
  | (Result.ok user_info_hash, auth_context1) =>
    encrypt_user_info ext auth_context1
      auth_password_state.AUTH_PASSWORD_RESPONSE user_info_hash
  | r => r

/-! ## The password state engine: what each block computes -/

/-- The PLAIN block of the arm `case AUTH_PASSWORD_HASH` on a credential that
stores a plaintext: both hashes are stored, and of the other members only
`mapped_state` is assigned. -/
theorem encrypt_user_info_to_hash_plain (ext : Externals)
    (to_state : auth_password_state) (user_info_in : auth_usersupplied_info)
    (p : CString)
    (hs : user_info_in.password_state = auth_password_state.AUTH_PASSWORD_PLAIN)
    (hp : user_info_in.password = auth_password.plaintext p) :
    encrypt_user_info_to_hash ext to_state user_info_in =
      Result.ok { user_info_in with
        mapped_state := mapped_state_of ext to_state
        password := auth_password.hash
          (if (ext.E_deshash p).1 then some { hash := (ext.E_deshash p).2 } else none)
          (some { hash := ext.E_md4hash p }) } := by
  simp [encrypt_user_info_to_hash, hs, hp]

/-- The HASH block of the arm `case AUTH_PASSWORD_RESPONSE`, legacy branch,
when LAN-Manager responses are on and an LM hash is stored: the NT response
buffer ends up holding the encryption under the LM hash, and the LM response
is the buffer as allocated. -/
theorem encrypt_user_info_hash_to_response_lanman (ext : Externals)
    (auth_context : auth4_context) (to_state : auth_password_state)
    (user_info_in : auth_usersupplied_info) (lm nt : samr_Password)
    (hp : user_info_in.password = auth_password.hash (some lm) (some nt))
    (hc : (auth_context.challenge auth_context.calls).1 = NTSTATUS.NT_STATUS_OK)
    (hv2 : auth_context.lp_ctx.client_ntlmv2_auth = false)
    (hlm : auth_context.lp_ctx.client_lanman_auth = true) :
    (encrypt_user_info_hash_to_response ext auth_context to_state user_info_in).1 =
      Result.ok { user_info_in with
        mapped_state := mapped_state_of ext to_state
        password := auth_password.response (ext.data_blob_talloc_fresh 24)
          (ext.SMBOWFencrypt lm.hash (auth_context.challenge auth_context.calls).2) } := by
  simp [encrypt_user_info_hash_to_response, auth_get_challenge, NT_STATUS_IS_OK,
    hp, hc, hv2, hlm]

/-- The HASH block of the arm `case AUTH_PASSWORD_RESPONSE`, legacy branch,
when LAN-Manager responses are off or no LM hash is stored: both responses are
the encryption of the challenge under the NT hash. -/
theorem encrypt_user_info_hash_to_response_nt_twice (ext : Externals)
    (auth_context : auth4_context) (to_state : auth_password_state)
    (user_info_in : auth_usersupplied_info) (lm : Option samr_Password)
    (nt : samr_Password)
    (hp : user_info_in.password = auth_password.hash lm (some nt))
    (hc : (auth_context.challenge auth_context.calls).1 = NTSTATUS.NT_STATUS_OK)
    (hv2 : auth_context.lp_ctx.client_ntlmv2_auth = false)
    (hlm : auth_context.lp_ctx.client_lanman_auth = false ∨ lm = none) :
    (encrypt_user_info_hash_to_response ext auth_context to_state user_info_in).1 =
      Result.ok { user_info_in with
        mapped_state := mapped_state_of ext to_state
        password := auth_password.response
          (ext.SMBOWFencrypt nt.hash (auth_context.challenge auth_context.calls).2)
          (ext.SMBOWFencrypt nt.hash (auth_context.challenge auth_context.calls).2) } := by
  rcases hlm with hlm | hlm
  · cases lm <;>
      simp [encrypt_user_info_hash_to_response, auth_get_challenge, NT_STATUS_IS_OK,
        hp, hc, hv2, hlm]
  · subst hlm
    cases h : auth_context.lp_ctx.client_lanman_auth <;>
      simp [encrypt_user_info_hash_to_response, auth_get_challenge, NT_STATUS_IS_OK,
        hp, hc, hv2, h]

/-- The arm `case AUTH_PASSWORD_HASH` never assigns `password_state`. -/
theorem encrypt_user_info_to_hash_password_state (ext : Externals)
    (to_state : auth_password_state)
    (user_info_in out : auth_usersupplied_info)
    (h : encrypt_user_info_to_hash ext to_state user_info_in = Result.ok out) :
    out.password_state = user_info_in.password_state := by
  unfold encrypt_user_info_to_hash at h
  split at h
  · split at h
    · simp only [Result.ok.injEq] at h
      subst h
      rfl
    · exact absurd h (by simp)
  · simp only [Result.ok.injEq] at h
    subst h
    rfl
  · exact absurd h (by simp)

/-- The HASH block of the arm `case AUTH_PASSWORD_RESPONSE` never assigns
`password_state`. -/
theorem encrypt_user_info_hash_to_response_password_state (ext : Externals)
    (auth_context : auth4_context) (to_state : auth_password_state)
    (user_info_in out : auth_usersupplied_info)
    (h : (encrypt_user_info_hash_to_response ext auth_context to_state
      user_info_in).1 = Result.ok out) :
    out.password_state = user_info_in.password_state := by
  unfold encrypt_user_info_hash_to_response at h
  simp only at h
  split at h
  · exact absurd h (by simp)
  · split at h
    · split at h
      · split at h
        · exact absurd h (by simp)
        · simp only [Result.ok.injEq] at h
          subst h
          rfl
      · split at h <;>
        · simp only [Result.ok.injEq] at h
          subst h
          rfl
    · exact absurd h (by simp)

/-- No block of `encrypt_user_info` assigns `password_state`: a credential it
stores has the stage tag of its input. -/
theorem encrypt_user_info_password_state (ext : Externals)
    (auth_context : auth4_context) (to_state : auth_password_state)
    (user_info_in out : auth_usersupplied_info)
    (h : (encrypt_user_info ext auth_context to_state user_info_in).1 = Result.ok out) :
    out.password_state = user_info_in.password_state := by
  unfold encrypt_user_info at h
  split at h
  · split at h
    · split at h
      · rename_i temp2 htemp
        rw [encrypt_user_info_hash_to_response_password_state ext auth_context _ temp2 out h]
        exact encrypt_user_info_to_hash_password_state ext _ user_info_in temp2 htemp
      · exact absurd h (by simp)
      · exact absurd h (by simp)
    · exact encrypt_user_info_hash_to_response_password_state ext auth_context _ _ out h
    · simp only [Result.ok.injEq] at h
      subst h
      rfl
  · exact encrypt_user_info_to_hash_password_state ext _ user_info_in out h
  · exact absurd h (by simp)

/-! ## Claims on the password state engine -/

/-- C1: on the three forward transitions the call succeeds and the stage tag
of the stored credential is the tag of the input, not the requested stage:
PLAIN to HASH and PLAIN to RESPONSE leave `AUTH_PASSWORD_PLAIN`, HASH to
RESPONSE leaves `AUTH_PASSWORD_HASH`. -/
theorem encrypt_user_info_stage_tag_not_advanced :
    ((encrypt_user_info ext0 (ctx0 false) auth_password_state.AUTH_PASSWORD_HASH
        cred_plain).1.out?.map (fun out => out.password_state)
      = some auth_password_state.AUTH_PASSWORD_PLAIN) ∧
    ((encrypt_user_info ext0 (ctx0 false) auth_password_state.AUTH_PASSWORD_RESPONSE
        cred_plain).1.out?.map (fun out => out.password_state)
      = some auth_password_state.AUTH_PASSWORD_PLAIN) ∧
    ((encrypt_user_info ext0 (ctx0 false) auth_password_state.AUTH_PASSWORD_RESPONSE
        cred_hash).1.out?.map (fun out => out.password_state)
      = some auth_password_state.AUTH_PASSWORD_HASH) := by
  decide

/-- C2, as stated, fails: a PLAIN credential advanced to PLAIN, and a RESPONSE
credential advanced to HASH, are rejected with `NT_STATUS_INVALID_PARAMETER`
and no credential is stored. -/
theorem encrypt_user_info_rejects_plain_target :
    (encrypt_user_info ext0 (ctx0 false) auth_password_state.AUTH_PASSWORD_PLAIN
        cred_plain).1 = Result.err NTSTATUS.NT_STATUS_INVALID_PARAMETER ∧
    (encrypt_user_info ext0 (ctx0 false) auth_password_state.AUTH_PASSWORD_PLAIN
        cred_plain).1 ≠ Result.ok cred_plain ∧
    (encrypt_user_info ext0 (ctx0 false) auth_password_state.AUTH_PASSWORD_HASH
        cred_response).1 = Result.err NTSTATUS.NT_STATUS_INVALID_PARAMETER ∧
    (encrypt_user_info ext0 (ctx0 false) auth_password_state.AUTH_PASSWORD_HASH
        cred_response).1 ≠ Result.ok cred_response := by
  decide

/-- C2, amended: for a target stage that is not strictly ahead of the stage of
the input, the call stores the input itself and leaves the challenge source
alone when the target is the stage of the input and is HASH or RESPONSE; in
every other such case (target PLAIN, or target HASH on a RESPONSE input) it
returns `NT_STATUS_INVALID_PARAMETER`. -/
theorem encrypt_user_info_not_ahead (ext : Externals)
    (auth_context : auth4_context) (to_state : auth_password_state)
    (user_info_in : auth_usersupplied_info)
    (h : ¬ user_info_in.password_state.rank < to_state.rank) :
    encrypt_user_info ext auth_context to_state user_info_in =
      if to_state = user_info_in.password_state ∧
          to_state ≠ auth_password_state.AUTH_PASSWORD_PLAIN then
        (Result.ok user_info_in, auth_context)
      else
        (Result.err NTSTATUS.NT_STATUS_INVALID_PARAMETER, auth_context) := by
  cases to_state <;> cases hs : user_info_in.password_state <;>
    simp_all [encrypt_user_info, encrypt_user_info_to_hash,
      auth_password_state.rank]

/-- C2, amended, on a HASH credential advanced to HASH. -/
theorem encrypt_user_info_not_ahead_witness :
    (¬ cred_hash.password_state.rank < auth_password_state.AUTH_PASSWORD_HASH.rank) ∧
    encrypt_user_info ext0 (ctx0 true) auth_password_state.AUTH_PASSWORD_HASH cred_hash =
      if auth_password_state.AUTH_PASSWORD_HASH = cred_hash.password_state ∧
          auth_password_state.AUTH_PASSWORD_HASH ≠ auth_password_state.AUTH_PASSWORD_PLAIN then
        (Result.ok cred_hash, ctx0 true)
      else
        (Result.err NTSTATUS.NT_STATUS_INVALID_PARAMETER, ctx0 true) :=
  ⟨by decide, encrypt_user_info_not_ahead ext0 (ctx0 true)
    auth_password_state.AUTH_PASSWORD_HASH cred_hash (by decide)⟩

/-- C3: with NTLMv2 off, LAN-Manager responses on and an LM hash stored, the
NT response of the stored credential is the encryption of the challenge under
the LM hash `[20]`, which differs from the encryption under the NT hash
`[40]`. -/
theorem encrypt_user_info_nt_response_overwritten :
    response_nt (encrypt_user_info ext0 (ctx0 true)
        auth_password_state.AUTH_PASSWORD_RESPONSE cred_hash).1
      = some (ext0.SMBOWFencrypt [20] [1, 2, 3, 4, 5, 6, 7, 8]) ∧
    response_nt (encrypt_user_info ext0 (ctx0 true)
        auth_password_state.AUTH_PASSWORD_RESPONSE cred_hash).1
      ≠ some (ext0.SMBOWFencrypt [40] [1, 2, 3, 4, 5, 6, 7, 8]) := by
  decide

/-- C4: with NTLMv2 off, LAN-Manager responses on and an LM hash stored, the
LM response of the stored credential is the 24 byte buffer as allocated, not
the encryption of the challenge under the LM hash `[20]`. -/
theorem encrypt_user_info_lm_response_not_computed :
    response_lanman (encrypt_user_info ext0 (ctx0 true)
        auth_password_state.AUTH_PASSWORD_RESPONSE cred_hash).1
      = some (ext0.data_blob_talloc_fresh 24) ∧
    response_lanman (encrypt_user_info ext0 (ctx0 true)
        auth_password_state.AUTH_PASSWORD_RESPONSE cred_hash).1
      ≠ some (ext0.SMBOWFencrypt [20] [1, 2, 3, 4, 5, 6, 7, 8]) := by
  decide

/-- C5: for a HASH credential, a challenge `c` handed out with status OK,
NTLMv2 off, and LAN-Manager responses off or no LM hash stored, the call to
RESPONSE succeeds and the LM response of the stored credential is equal to its
NT response, both being the encryption of `c` under the NT hash. -/
theorem encrypt_user_info_response_nt_twice (ext : Externals)
    (auth_context : auth4_context) (user_info_in : auth_usersupplied_info)
    (lm : Option samr_Password) (nt : samr_Password) (c : List Nat)
    (hs : user_info_in.password_state = auth_password_state.AUTH_PASSWORD_HASH)
    (hp : user_info_in.password = auth_password.hash lm (some nt))
    (hc : auth_context.challenge auth_context.calls = (NTSTATUS.NT_STATUS_OK, c))
    (hv2 : auth_context.lp_ctx.client_ntlmv2_auth = false)
    (hlm : auth_context.lp_ctx.client_lanman_auth = false ∨ lm = none) :
    ∃ out, (encrypt_user_info ext auth_context
        auth_password_state.AUTH_PASSWORD_RESPONSE user_info_in).1 = Result.ok out ∧
      out.password = auth_password.response (ext.SMBOWFencrypt nt.hash c)
        (ext.SMBOWFencrypt nt.hash c) ∧
      response_lanman (Result.ok out) = response_nt (Result.ok out) := by
  have hb := encrypt_user_info_hash_to_response_nt_twice ext auth_context
    auth_password_state.AUTH_PASSWORD_RESPONSE user_info_in lm nt hp
    (by rw [hc]) hv2 hlm
  rw [hc] at hb
  have he : (encrypt_user_info ext auth_context
      auth_password_state.AUTH_PASSWORD_RESPONSE user_info_in).1 =
      (encrypt_user_info_hash_to_response ext auth_context
        auth_password_state.AUTH_PASSWORD_RESPONSE user_info_in).1 := by
    simp only [encrypt_user_info, hs]
  exact ⟨_, he.trans hb, rfl, rfl⟩

/-- C5 on a HASH credential with an LM hash, LAN-Manager responses off. -/
theorem encrypt_user_info_response_nt_twice_witness :
    cred_hash.password_state = auth_password_state.AUTH_PASSWORD_HASH ∧
    cred_hash.password =
      auth_password.hash (some { hash := [20] }) (some { hash := [40] }) ∧
    (ctx0 false).challenge (ctx0 false).calls =
      (NTSTATUS.NT_STATUS_OK, [1, 2, 3, 4, 5, 6, 7, 8]) ∧
    (ctx0 false).lp_ctx.client_ntlmv2_auth = false ∧
    (ctx0 false).lp_ctx.client_lanman_auth = false ∧
    ∃ out, (encrypt_user_info ext0 (ctx0 false)
        auth_password_state.AUTH_PASSWORD_RESPONSE cred_hash).1 = Result.ok out ∧
      out.password = auth_password.response
        (ext0.SMBOWFencrypt [40] [1, 2, 3, 4, 5, 6, 7, 8])
        (ext0.SMBOWFencrypt [40] [1, 2, 3, 4, 5, 6, 7, 8]) ∧
      response_lanman (Result.ok out) = response_nt (Result.ok out) :=
  ⟨rfl, rfl, rfl, rfl, rfl,
    encrypt_user_info_response_nt_twice ext0 (ctx0 false) cred_hash
      (some { hash := [20] }) { hash := [40] } [1, 2, 3, 4, 5, 6, 7, 8]
      rfl rfl rfl rfl (Or.inl rfl)⟩

/-- C6: for a PLAIN credential with plaintext `p` the call to HASH succeeds;
the stored NT hash is present and is `E_md4hash p`; the stored LM hash is the
output of `E_deshash p` when `E_deshash` returns true and is absent otherwise,
and the call succeeds in both cases. -/
theorem encrypt_user_info_plain_to_hash (ext : Externals)
    (auth_context : auth4_context) (user_info_in : auth_usersupplied_info)
    (p : CString)
    (hs : user_info_in.password_state = auth_password_state.AUTH_PASSWORD_PLAIN)
    (hp : user_info_in.password = auth_password.plaintext p) :
    ∃ out, (encrypt_user_info ext auth_context
        auth_password_state.AUTH_PASSWORD_HASH user_info_in).1 = Result.ok out ∧
      out.password = auth_password.hash
        (if (ext.E_deshash p).1 = true then some { hash := (ext.E_deshash p).2 } else none)
        (some { hash := ext.E_md4hash p }) := by
  have he : (encrypt_user_info ext auth_context
      auth_password_state.AUTH_PASSWORD_HASH user_info_in).1 =
      encrypt_user_info_to_hash ext auth_password_state.AUTH_PASSWORD_HASH
        user_info_in := by
    simp only [encrypt_user_info]
  exact ⟨_, he.trans (encrypt_user_info_to_hash_plain ext _ user_info_in p hs hp),
    rfl⟩

/-- C6 on the plaintext `pw`. -/
theorem encrypt_user_info_plain_to_hash_witness :
    cred_plain.password_state = auth_password_state.AUTH_PASSWORD_PLAIN ∧
    cred_plain.password = auth_password.plaintext ['p', 'w'] ∧
    ∃ out, (encrypt_user_info ext0 (ctx0 true)
        auth_password_state.AUTH_PASSWORD_HASH cred_plain).1 = Result.ok out ∧
      out.password = auth_password.hash
        (if (ext0.E_deshash ['p', 'w']).1 = true then
          some { hash := (ext0.E_deshash ['p', 'w']).2 } else none)
        (some { hash := ext0.E_md4hash ['p', 'w'] }) :=
  ⟨rfl, rfl,
    encrypt_user_info_plain_to_hash ext0 (ctx0 true) cred_plain ['p', 'w'] rfl rfl⟩

/-! ## The identity mapper: splitting at the first separator -/

/-- The search `strchr_m` finds nothing exactly when the character does not
occur. -/
theorem strchr_m_eq_none_iff (s : CString) (c : Char) :
    strchr_m s c = none ↔ c ∉ s := by
  induction s with
  | nil => simp [strchr_m]
  | cons x xs ih =>
    by_cases hx : x = c
    · simp [strchr_m, hx]
    · have hc : ¬ c = x := fun h => hx h.symm
      simp [strchr_m, hx, hc, ih]

/-- The search `strchr_m` finds something exactly when the character
occurs. -/
theorem strchr_m_isSome_iff (s : CString) (c : Char) :
    (strchr_m s c).isSome = true ↔ c ∈ s := by
  rw [← not_iff_not, ← strchr_m_eq_none_iff]
  cases strchr_m s c <;> simp

/-- At the index found by `strchr_m` the string splits into a part without the
character, the character, and the rest. -/
theorem strchr_m_split (s : CString) (c : Char) (i : Nat)
    (h : strchr_m s c = some i) :
    c ∉ s.take i ∧ s.take i ++ c :: s.drop (i + 1) = s := by
  induction s generalizing i with
  | nil => simp [strchr_m] at h
  | cons x xs ih =>
    by_cases hx : x = c
    · simp [strchr_m, hx] at h
      subst h
      simp [hx]
    · simp only [strchr_m, hx, if_false, Option.map_eq_some'] at h
      obtain ⟨j, hj, rfl⟩ := h
      have hc : ¬ c = x := fun h => hx h.symm
      have := ih j hj
      simp [hc, this.1, this.2]

/-! ## Claims on the identity mapper -/

/-- C7: without a resolver, for an empty client domain and an account name
that contains `@`, the call succeeds; the mapped account contains no `@`, and
mapped account, `@`, mapped domain put together give the client account name,
so the split is at the first `@`; the default domain plays no part. -/
theorem map_user_info_split_at_first_at (ext : Externals)
    (default_domain : CString) (user_info : auth_usersupplied_info)
    (hd : user_info.client.domain_name = [])
    (ha : '@' ∈ user_info.client.account_name) :
    (∃ out, map_user_info ext none default_domain user_info = Result.ok out ∧
      '@' ∉ out.mapped.account_name ∧
      out.mapped.account_name ++ '@' :: out.mapped.domain_name =
        user_info.client.account_name) ∧
    map_user_info ext none default_domain user_info =
      map_user_info ext none [] user_info := by
  have hs := (strchr_m_isSome_iff user_info.client.account_name '@').2 ha
  obtain ⟨i, hi⟩ := Option.isSome_iff_exists.1 hs
  have hsplit := strchr_m_split _ _ i hi
  constructor
  · refine ⟨fill_user_info_mapped user_info
      (user_info.client.account_name.drop (i + 1))
      (user_info.client.account_name.take i), ?_, hsplit.1, hsplit.2⟩
    simp [map_user_info, hd, hi]
  · simp [map_user_info, hd, hi]

/-- C7 on the scenario: account `bob@EXAMPLE`, default domain `WORKGROUP`,
mapped to account `bob` in domain `EXAMPLE`. -/
theorem map_user_info_split_at_first_at_witness :
    cred_bob.client.domain_name = [] ∧
    '@' ∈ cred_bob.client.account_name ∧
    ((∃ out, map_user_info ext0 none workgroup0 cred_bob = Result.ok out ∧
      '@' ∉ out.mapped.account_name ∧
      out.mapped.account_name ++ '@' :: out.mapped.domain_name =
        cred_bob.client.account_name) ∧
    map_user_info ext0 none workgroup0 cred_bob =
      map_user_info ext0 none [] cred_bob) ∧
    (map_user_info ext0 none workgroup0 cred_bob).out?.map (fun out => out.mapped) =
      some { account_name := ['b', 'o', 'b'],
             domain_name := ['E', 'X', 'A', 'M', 'P', 'L', 'E'] } :=
  ⟨rfl, by decide,
    map_user_info_split_at_first_at ext0 workgroup0 cred_bob rfl (by decide),
    by decide⟩

/-- C8: without a resolver the call always succeeds; with a non-empty client
domain the mapped domain is the client domain and the mapped account is the
client account name as it is; with an empty client domain and an account name
without `@` the mapped domain is the default domain and the mapped account is
the client account name as it is. -/
theorem map_user_info_verbatim (ext : Externals) (default_domain : CString)
    (user_info : auth_usersupplied_info) :
    ∃ out, map_user_info ext none default_domain user_info = Result.ok out ∧
      (user_info.client.domain_name ≠ [] →
        out.mapped.domain_name = user_info.client.domain_name ∧
        out.mapped.account_name = user_info.client.account_name) ∧
      (user_info.client.domain_name = [] →
        '@' ∉ user_info.client.account_name →
        out.mapped.domain_name = default_domain ∧
        out.mapped.account_name = user_info.client.account_name) := by
  by_cases hd : user_info.client.domain_name = []
  · cases hi : strchr_m user_info.client.account_name '@' with
    | none =>
      refine ⟨fill_user_info_mapped user_info default_domain
        user_info.client.account_name, ?_, ?_, ?_⟩
      · simp [map_user_info, hd, hi]
      · intro h
        exact absurd hd h
      · intro _ _
        exact ⟨rfl, rfl⟩
    | some i =>
      refine ⟨fill_user_info_mapped user_info
        (user_info.client.account_name.drop (i + 1))
        (user_info.client.account_name.take i), ?_, ?_, ?_⟩
      · simp [map_user_info, hd, hi]
      · intro h
        exact absurd hd h
      · intro _ hn
        rw [← strchr_m_eq_none_iff, hi] at hn
        exact absurd hn (by simp)
  · refine ⟨fill_user_info_mapped user_info user_info.client.domain_name
      user_info.client.account_name, ?_, ?_, ?_⟩
    · simp [map_user_info, hd]
    · intro _
      exact ⟨rfl, rfl⟩
    · intro h
      exact absurd h hd

/-- C8 on domain `D` with account `bob@EXAMPLE`: both are taken as they
are. -/
theorem map_user_info_verbatim_witness :
    cred_dom.client.domain_name ≠ [] ∧
    (∃ out, map_user_info ext0 none workgroup0 cred_dom = Result.ok out ∧
      (cred_dom.client.domain_name ≠ [] →
        out.mapped.domain_name = cred_dom.client.domain_name ∧
        out.mapped.account_name = cred_dom.client.account_name) ∧
      (cred_dom.client.domain_name = [] →
        '@' ∉ cred_dom.client.account_name →
        out.mapped.domain_name = workgroup0 ∧
        out.mapped.account_name = cred_dom.client.account_name)) ∧
    (map_user_info ext0 none workgroup0 cred_dom).out?.map (fun out => out.mapped) =
      some { account_name := ['b', 'o', 'b', '@', 'E', 'X', 'A', 'M', 'P', 'L', 'E'],
             domain_name := ['D'] } :=
  ⟨by decide, map_user_info_verbatim ext0 workgroup0 cred_dom, by decide⟩

/-- C9: with a resolver, an account name that contains `@`, and a resolver
call that returns `WERR_OK` with result `info1`: the mapping succeeds exactly
when the status is OK and the result name contains a backslash; a stored
credential has the part of the result name before its first backslash as mapped
domain and the part after it as mapped account; in every other case the return
is `NT_STATUS_NO_SUCH_USER`. -/
theorem map_user_info_cracknames_principal (ext : Externals) (sam_ctx : ldb_context)
    (default_domain : CString) (user_info : auth_usersupplied_info)
    (info1 : drsuapi_DsNameInfo1)
    (ha : '@' ∈ user_info.client.account_name)
    (hr : sam_ctx.DsCrackNameOneName 0
      drsuapi_DsNameFormat.DRSUAPI_DS_NAME_FORMAT_USER_PRINCIPAL
      drsuapi_DsNameFormat.DRSUAPI_DS_NAME_FORMAT_NT4_ACCOUNT
      user_info.client.account_name = (0, info1)) :
    ((∃ out, map_user_info ext (some sam_ctx) default_domain user_info = Result.ok out) ↔
      (info1.status = drsuapi_DsNameStatus.DRSUAPI_DS_NAME_STATUS_OK ∧
        sep ∈ info1.result_name)) ∧
    (∀ out, map_user_info ext (some sam_ctx) default_domain user_info = Result.ok out →
      sep ∉ out.mapped.domain_name ∧
      out.mapped.domain_name ++ sep :: out.mapped.account_name = info1.result_name) ∧
    (¬ (info1.status = drsuapi_DsNameStatus.DRSUAPI_DS_NAME_STATUS_OK ∧
        sep ∈ info1.result_name) →
      map_user_info ext (some sam_ctx) default_domain user_info =
        Result.err NTSTATUS.NT_STATUS_NO_SUCH_USER) := by
  have hs := (strchr_m_isSome_iff user_info.client.account_name '@').2 ha
  have hm : map_user_info ext (some sam_ctx) default_domain user_info =
      match info1.status with
      | drsuapi_DsNameStatus.DRSUAPI_DS_NAME_STATUS_OK =>
        match strchr_m info1.result_name sep with
        | none => Result.err NTSTATUS.NT_STATUS_NO_SUCH_USER
        | some i =>
          Result.ok (fill_user_info_mapped user_info
            (info1.result_name.take i) (info1.result_name.drop (i + 1)))
      | _ => Result.err NTSTATUS.NT_STATUS_NO_SUCH_USER := by
    simp only [map_user_info, map_user_info_cracknames, hs, if_true, hr]
    cases info1.status <;> simp [W_ERROR_IS_OK]
  rw [hm]
  cases hst : info1.status with
  | DRSUAPI_DS_NAME_STATUS_OK =>
    cases hi : strchr_m info1.result_name sep with
    | none =>
      have hn := (strchr_m_eq_none_iff _ _).1 hi
      simp [hn]
    | some i =>
      have hsplit := strchr_m_split _ _ i hi
      have hmem : sep ∈ info1.result_name := by
        rw [← strchr_m_isSome_iff, hi]
        rfl
      refine ⟨by simp [hmem], ?_, by simp [hmem]⟩
      intro out hout
      simp only [Result.ok.injEq] at hout
      subst hout
      exact hsplit
  | _ => simp

/-- C9 on the account `bob@EXAMPLE` resolved to status OK, name
`EXAMPLE\bob`. -/
theorem map_user_info_cracknames_principal_witness :
    '@' ∈ cred_bob.client.account_name ∧
    ((∃ out, map_user_info ext0
        (some (sam0 drsuapi_DsNameStatus.DRSUAPI_DS_NAME_STATUS_OK
          ['E', 'X', sep, 'b', 'o', 'b'])) workgroup0 cred_bob = Result.ok out) ↔
      (drsuapi_DsNameStatus.DRSUAPI_DS_NAME_STATUS_OK =
          drsuapi_DsNameStatus.DRSUAPI_DS_NAME_STATUS_OK ∧
        sep ∈ ['E', 'X', sep, 'b', 'o', 'b'])) ∧
    (map_user_info ext0
        (some (sam0 drsuapi_DsNameStatus.DRSUAPI_DS_NAME_STATUS_OK
          ['E', 'X', sep, 'b', 'o', 'b'])) workgroup0 cred_bob).out?.map
        (fun out => out.mapped) =
      some { account_name := ['b', 'o', 'b'], domain_name := ['E', 'X'] } :=
  ⟨by decide,
    (map_user_info_cracknames_principal ext0
      (sam0 drsuapi_DsNameStatus.DRSUAPI_DS_NAME_STATUS_OK
        ['E', 'X', sep, 'b', 'o', 'b'])
      workgroup0 cred_bob
      { status := drsuapi_DsNameStatus.DRSUAPI_DS_NAME_STATUS_OK,
        result_name := ['E', 'X', sep, 'b', 'o', 'b'] }
      (by decide) rfl).1,
    by decide⟩

/-- C10: with a resolver, an account name without `@`, and a probe of the
domain that returns `WERR_OK` with status NOT_UNIQUE, RESOLVE_ERROR or a value
outside the five named ones, the return is `NT_STATUS_NO_SUCH_USER`, whatever
the client domain and the default domain are; no credential is stored. -/
theorem map_user_info_cracknames_probe_rejected (ext : Externals)
    (sam_ctx : ldb_context) (default_domain : CString)
    (user_info : auth_usersupplied_info) (info1 : drsuapi_DsNameInfo1)
    (ha : '@' ∉ user_info.client.account_name)
    (hr : sam_ctx.DsCrackNameOneName 0
      drsuapi_DsNameFormat.DRSUAPI_DS_NAME_FORMAT_NT4_ACCOUNT
      drsuapi_DsNameFormat.DRSUAPI_DS_NAME_FORMAT_NT4_ACCOUNT
      (cracknames_domain_name default_domain user_info) = (0, info1))
    (hst : info1.status = drsuapi_DsNameStatus.DRSUAPI_DS_NAME_STATUS_NOT_UNIQUE ∨
      info1.status = drsuapi_DsNameStatus.DRSUAPI_DS_NAME_STATUS_RESOLVE_ERROR ∨
      ∃ v, info1.status = drsuapi_DsNameStatus.other v) :
    map_user_info ext (some sam_ctx) default_domain user_info =
      Result.err NTSTATUS.NT_STATUS_NO_SUCH_USER := by
  have hs := (strchr_m_eq_none_iff user_info.client.account_name '@').2 ha
  simp only [map_user_info, map_user_info_cracknames, hs, hr]
  rcases hst with h | h | ⟨v, h⟩ <;> simp [h, W_ERROR_IS_OK]

/-- C10 on the account `bob` with client domain `D` and a probe answered with
NOT_UNIQUE. -/
theorem map_user_info_cracknames_probe_rejected_witness :
    '@' ∉ (cred0 ['D'] ['b', 'o', 'b'] auth_password_state.AUTH_PASSWORD_PLAIN
      (auth_password.plaintext [])).client.account_name ∧
    map_user_info ext0
      (some (sam0 drsuapi_DsNameStatus.DRSUAPI_DS_NAME_STATUS_NOT_UNIQUE ['D', sep]))
      workgroup0
      (cred0 ['D'] ['b', 'o', 'b'] auth_password_state.AUTH_PASSWORD_PLAIN
        (auth_password.plaintext [])) =
      Result.err NTSTATUS.NT_STATUS_NO_SUCH_USER :=
  ⟨by decide,
    map_user_info_cracknames_probe_rejected ext0
      (sam0 drsuapi_DsNameStatus.DRSUAPI_DS_NAME_STATUS_NOT_UNIQUE ['D', sep])
      workgroup0
      (cred0 ['D'] ['b', 'o', 'b'] auth_password_state.AUTH_PASSWORD_PLAIN
        (auth_password.plaintext []))
      { status := drsuapi_DsNameStatus.DRSUAPI_DS_NAME_STATUS_NOT_UNIQUE,
        result_name := ['D', sep] }
      (by decide) rfl (Or.inl rfl)⟩

/-! ## The identity mapper: the shape of a stored credential -/

/-- The resolver branch for an account name without `@`, after a probe that
returned `WERR_OK` with result `info1`. -/
theorem map_user_info_cracknames_domain_branch (ext : Externals) (sam_ctx : ldb_context)
    (default_domain : CString) (user_info : auth_usersupplied_info)
    (info1 : drsuapi_DsNameInfo1)
    (ha : '@' ∉ user_info.client.account_name)
    (hr : sam_ctx.DsCrackNameOneName 0
      drsuapi_DsNameFormat.DRSUAPI_DS_NAME_FORMAT_NT4_ACCOUNT
      drsuapi_DsNameFormat.DRSUAPI_DS_NAME_FORMAT_NT4_ACCOUNT
      (cracknames_domain_name default_domain user_info) = (0, info1)) :
    map_user_info ext (some sam_ctx) default_domain user_info =
      match info1.status with
      | drsuapi_DsNameStatus.DRSUAPI_DS_NAME_STATUS_OK
      | drsuapi_DsNameStatus.DRSUAPI_DS_NAME_STATUS_DOMAIN_ONLY =>
        match cracknames_strip ext info1.result_name with
        | none => Result.undefined
        | some domain =>
          Result.ok (fill_user_info_mapped user_info domain
            user_info.client.account_name)
      | drsuapi_DsNameStatus.DRSUAPI_DS_NAME_STATUS_NOT_FOUND =>
        Result.ok (fill_user_info_mapped user_info default_domain
          user_info.client.account_name)
      | _ => Result.err NTSTATUS.NT_STATUS_NO_SUCH_USER := by
  have hs := (strchr_m_eq_none_iff user_info.client.account_name '@').2 ha
  simp only [map_user_info, map_user_info_cracknames, hs, hr]
  cases info1.status <;> simp [W_ERROR_IS_OK]

/-- A credential stored by `map_user_info_cracknames` is the input with the
mapped members filled; for an account name without `@` the mapped account is
the client account name. -/
theorem map_user_info_cracknames_ok_shape (ext : Externals) (sam_ctx : ldb_context)
    (default_domain : CString) (user_info out : auth_usersupplied_info)
    (h : map_user_info_cracknames ext sam_ctx default_domain user_info = Result.ok out) :
    ∃ d a, out = fill_user_info_mapped user_info d a ∧
      ('@' ∉ user_info.client.account_name → a = user_info.client.account_name) := by
  unfold map_user_info_cracknames at h
  split at h
  · rename_i hs
    have hmem := (strchr_m_isSome_iff _ _).1 hs
    simp only at h
    split at h
    · exact absurd h (by simp)
    · split at h
      · split at h
        · exact absurd h (by simp)
        · simp only [Result.ok.injEq] at h
          exact ⟨_, _, h.symm, fun hn => absurd hmem hn⟩
      all_goals exact absurd h (by simp)
  · simp only at h
    split at h
    · exact absurd h (by simp)
    · split at h
      all_goals first
        | exact Result.noConfusion h
        | (simp only [Result.ok.injEq] at h
           exact ⟨_, _, h.symm, fun _ => rfl⟩)
        | (split at h
           · exact Result.noConfusion h
           · simp only [Result.ok.injEq] at h
             exact ⟨_, _, h.symm, fun _ => rfl⟩)

/-- A credential stored by `map_user_info` is the input with the mapped
members filled; for an account name without `@` the mapped account is the
client account name, and without a resolver and with an empty client domain
the mapped account has no `@`. -/
theorem map_user_info_ok_shape (ext : Externals) (sam_ctx : Option ldb_context)
    (default_domain : CString) (user_info out : auth_usersupplied_info)
    (h : map_user_info ext sam_ctx default_domain user_info = Result.ok out) :
    ∃ d a, out = fill_user_info_mapped user_info d a ∧
      ('@' ∉ user_info.client.account_name → a = user_info.client.account_name) ∧
      (sam_ctx = none → user_info.client.domain_name = [] → '@' ∉ a) := by
  cases sam_ctx with
  | some sam =>
    obtain ⟨d, a, ho, ha⟩ := map_user_info_cracknames_ok_shape ext sam
      default_domain user_info out h
    exact ⟨d, a, ho, ha, fun hn => absurd hn (by simp)⟩
  | none =>
    by_cases hd : user_info.client.domain_name = []
    · cases hi : strchr_m user_info.client.account_name '@' with
      | none =>
        have hn := (strchr_m_eq_none_iff _ _).1 hi
        simp only [map_user_info, hd, hi] at h
        simp only [ne_eq, not_true_eq_false, if_false, Option.isSome_none,
          Bool.false_eq_true, Result.ok.injEq] at h
        exact ⟨_, _, h.symm, fun _ => rfl, fun _ _ => hn⟩
      | some i =>
        have hsplit := strchr_m_split _ _ i hi
        have hmem : '@' ∈ user_info.client.account_name := by
          rw [← strchr_m_isSome_iff, hi]
          rfl
        simp only [map_user_info, hd, hi] at h
        simp only [ne_eq, not_true_eq_false, if_false, Option.isSome_some,
          if_true, Result.ok.injEq] at h
        exact ⟨_, _, h.symm, fun hn => absurd hmem hn, fun _ _ => hsplit.1⟩
    · simp only [map_user_info, ne_eq, hd, not_false_eq_true, if_true,
        Result.ok.injEq] at h
      exact ⟨_, _, h.symm, fun _ => rfl, fun _ hd2 => absurd hd2 hd⟩

/-- For a string whose `strlen_m` is its number of characters and which is not
empty, the test of lines 169-171 removes one trailing backslash when there is
one and leaves the string as it is otherwise. -/
theorem cracknames_strip_of_length (ext : Externals) (domain : CString)
    (hl : ext.strlen_m domain = domain.length) (hne : domain ≠ []) :
    cracknames_strip ext domain =
      some (if domain.getLast? = some sep then domain.dropLast else domain) := by
  have hpos : 0 < domain.length := List.length_pos.2 hne
  have hlt : domain.length - 1 < domain.length := by omega
  have hget : domain.get? (domain.length - 1) = domain.getLast? := by
    rw [List.getLast?_eq_getElem?, List.get?_eq_getElem?]
  have hn0 : domain.length ≠ 0 := by omega
  obtain ⟨c, hc⟩ : ∃ c, domain.getLast? = some c := by
    cases hx : domain.getLast? with
    | none => exact absurd (List.getLast?_eq_none_iff.1 hx) hne
    | some c => exact ⟨c, rfl⟩
  simp only [cracknames_strip, hl, hn0, if_false, hget, hc, Option.some.injEq,
    List.dropLast_eq_take]
  by_cases hs : c = sep <;> simp [hs]

/-- With a resolver and an account name that contains `@`, the mapped account
of a stored credential is a final part of the name the resolver returned. -/
theorem map_user_info_cracknames_upn_account (ext : Externals)
    (sam_ctx : ldb_context) (default_domain : CString)
    (user_info out : auth_usersupplied_info)
    (h : map_user_info ext (some sam_ctx) default_domain user_info = Result.ok out)
    (ha : '@' ∈ user_info.client.account_name) :
    ∃ i, out.mapped.account_name =
      (sam_ctx.DsCrackNameOneName 0
        drsuapi_DsNameFormat.DRSUAPI_DS_NAME_FORMAT_USER_PRINCIPAL
        drsuapi_DsNameFormat.DRSUAPI_DS_NAME_FORMAT_NT4_ACCOUNT
        user_info.client.account_name).2.result_name.drop (i + 1) := by
  have hs := (strchr_m_isSome_iff user_info.client.account_name '@').2 ha
  simp only [map_user_info, map_user_info_cracknames, hs, if_true] at h
  split at h
  · exact Result.noConfusion h
  · split at h
    · split at h
      · exact Result.noConfusion h
      · rename_i i _
        simp only [Result.ok.injEq] at h
        subst h
        exact ⟨i, rfl⟩
    all_goals exact Result.noConfusion h

/-! ## Claims on the identity mapper, resolver path and invariants -/

/-- C11: with a resolver, an account name without `@`, and a probe of the
domain that returns `WERR_OK` with status NOT_FOUND, the call succeeds; the
mapped domain is the default domain, whatever the client domain is, and the
mapped account is the client account name as it is. -/
theorem map_user_info_cracknames_not_found (ext : Externals)
    (sam_ctx : ldb_context) (default_domain : CString)
    (user_info : auth_usersupplied_info) (info1 : drsuapi_DsNameInfo1)
    (ha : '@' ∉ user_info.client.account_name)
    (hr : sam_ctx.DsCrackNameOneName 0
      drsuapi_DsNameFormat.DRSUAPI_DS_NAME_FORMAT_NT4_ACCOUNT
      drsuapi_DsNameFormat.DRSUAPI_DS_NAME_FORMAT_NT4_ACCOUNT
      (cracknames_domain_name default_domain user_info) = (0, info1))
    (hst : info1.status = drsuapi_DsNameStatus.DRSUAPI_DS_NAME_STATUS_NOT_FOUND) :
    ∃ out, map_user_info ext (some sam_ctx) default_domain user_info = Result.ok out ∧
      out.mapped.domain_name = default_domain ∧
      out.mapped.account_name = user_info.client.account_name := by
  have hm := map_user_info_cracknames_domain_branch ext sam_ctx default_domain user_info
    info1 ha hr
  rw [hst] at hm
  exact ⟨_, hm, rfl, rfl⟩

/-- C11 on client domain `D`, account `bob`, default domain `WORKGROUP`. -/
theorem map_user_info_cracknames_not_found_witness :
    '@' ∉ cred_dbob.client.account_name ∧
    cred_dbob.client.domain_name ≠ [] ∧
    ∃ out, map_user_info ext0
        (some (sam0 drsuapi_DsNameStatus.DRSUAPI_DS_NAME_STATUS_NOT_FOUND []))
        workgroup0 cred_dbob = Result.ok out ∧
      out.mapped.domain_name = workgroup0 ∧
      out.mapped.account_name = cred_dbob.client.account_name :=
  ⟨by decide, by decide,
    map_user_info_cracknames_not_found ext0
      (sam0 drsuapi_DsNameStatus.DRSUAPI_DS_NAME_STATUS_NOT_FOUND [])
      workgroup0 cred_dbob
      { status := drsuapi_DsNameStatus.DRSUAPI_DS_NAME_STATUS_NOT_FOUND,
        result_name := [] }
      (by decide) rfl rfl⟩

/-- C12: with a probe answered by status OK, or DOMAIN_ONLY, and the empty
result name, the index `strlen_m(domain)-1` of line 169 is outside the copy of
the name, and the call has no defined outcome; it does not succeed with the
empty domain. -/
theorem map_user_info_cracknames_empty_result_name :
    map_user_info ext0
        (some (sam0 drsuapi_DsNameStatus.DRSUAPI_DS_NAME_STATUS_OK []))
        workgroup0 cred_dbob = Result.undefined ∧
    map_user_info ext0
        (some (sam0 drsuapi_DsNameStatus.DRSUAPI_DS_NAME_STATUS_DOMAIN_ONLY []))
        workgroup0 cred_dbob = Result.undefined ∧
    map_user_info ext0
        (some (sam0 drsuapi_DsNameStatus.DRSUAPI_DS_NAME_STATUS_OK []))
        workgroup0 cred_dbob ≠
      Result.ok (fill_user_info_mapped cred_dbob [] cred_dbob.client.account_name) := by
  decide

/-- C13, as stated, fails: without a resolver, client domain `D` and account
`bob@EXAMPLE` are mapped with success to an account that contains `@`. -/
theorem map_user_info_account_keeps_at :
    (map_user_info ext0 none workgroup0 cred_dom).out?.map
        (fun out => out.mapped.account_name) =
      some ['b', 'o', 'b', '@', 'E', 'X', 'A', 'M', 'P', 'L', 'E'] ∧
    '@' ∈ ['b', 'o', 'b', '@', 'E', 'X', 'A', 'M', 'P', 'L', 'E'] := by
  decide

/-- C13, amended: whenever the call succeeds, the mapped account contains no
`@` if the client account name contains none (with or without a resolver), or
if there is no resolver and the client domain is empty, or if there is a
resolver and the name it returns for the client account name, taken as a user
principal name, contains none. -/
theorem map_user_info_account_no_at (ext : Externals)
    (sam_ctx : Option ldb_context) (default_domain : CString)
    (user_info out : auth_usersupplied_info)
    (h : map_user_info ext sam_ctx default_domain user_info = Result.ok out)
    (hc : '@' ∉ user_info.client.account_name ∨
      (sam_ctx = none ∧ user_info.client.domain_name = []) ∨
      (∃ sam, sam_ctx = some sam ∧
        '@' ∉ (sam.DsCrackNameOneName 0
          drsuapi_DsNameFormat.DRSUAPI_DS_NAME_FORMAT_USER_PRINCIPAL
          drsuapi_DsNameFormat.DRSUAPI_DS_NAME_FORMAT_NT4_ACCOUNT
          user_info.client.account_name).2.result_name)) :
    '@' ∉ out.mapped.account_name := by
  obtain ⟨d, a, ho, hv, hs⟩ := map_user_info_ok_shape ext sam_ctx default_domain
    user_info out h
  rcases hc with hn | ⟨hsam, hd⟩ | ⟨sam, hsam, hres⟩
  · subst ho
    have ha := hv hn
    subst ha
    exact hn
  · subst ho
    exact hs hsam hd
  · subst hsam
    by_cases hn : '@' ∈ user_info.client.account_name
    · obtain ⟨i, hi⟩ := map_user_info_cracknames_upn_account ext sam
        default_domain user_info out h hn
      rw [hi]
      exact fun hmem => hres (List.mem_of_mem_drop hmem)
    · subst ho
      have ha := hv hn
      subst ha
      exact hn

/-- C13, amended, on the scenario `bob@EXAMPLE` without a resolver. -/
theorem map_user_info_account_no_at_witness :
    map_user_info ext0 none workgroup0 cred_bob =
      Result.ok (fill_user_info_mapped cred_bob ['E', 'X', 'A', 'M', 'P', 'L', 'E']
        ['b', 'o', 'b']) ∧
    ((none : Option ldb_context) = none ∧ cred_bob.client.domain_name = []) ∧
    '@' ∉ (fill_user_info_mapped cred_bob ['E', 'X', 'A', 'M', 'P', 'L', 'E']
        ['b', 'o', 'b']).mapped.account_name :=
  ⟨by decide, ⟨rfl, rfl⟩,
    map_user_info_account_no_at ext0 none workgroup0 cred_bob
      (fill_user_info_mapped cred_bob ['E', 'X', 'A', 'M', 'P', 'L', 'E']
        ['b', 'o', 'b'])
      (by decide) (Or.inr (Or.inl ⟨rfl, rfl⟩))⟩

/-- C14: without a resolver, an empty client domain and the account `bob@`
are mapped with success to the account `bob` and the empty domain, although
the default domain is `WORKGROUP`: the part after the first `@` is taken as
the domain without a test.  An empty default domain is likewise stored as the
mapped domain for the account `bob`. -/
theorem map_user_info_empty_mapped_domain :
    cred_bob_at.client.domain_name = [] ∧
    cred_bob_at.client.account_name = ['b', 'o', 'b', '@'] ∧
    map_user_info ext0 none workgroup0 cred_bob_at =
      Result.ok (fill_user_info_mapped cred_bob_at [] ['b', 'o', 'b']) ∧
    (map_user_info ext0 none workgroup0 cred_bob_at).out?.map
        (fun out => out.mapped.domain_name) = some [] ∧
    (map_user_info ext0 none [] cred_plain).out?.map
        (fun out => out.mapped.domain_name) = some [] := by
  decide

/-- C17: a credential stored by `map_user_info`, with or without a resolver,
has `mapped_state` true, and its client names, workstation name, password and
password stage are those of the input: it is the input with `mapped_state` and
the two mapped names replaced. -/
theorem map_user_info_frame (ext : Externals) (sam_ctx : Option ldb_context)
    (default_domain : CString) (user_info out : auth_usersupplied_info)
    (h : map_user_info ext sam_ctx default_domain user_info = Result.ok out) :
    out.mapped_state = true ∧
    out.client = user_info.client ∧
    out.workstation_name = user_info.workstation_name ∧
    out.password = user_info.password ∧
    out.password_state = user_info.password_state ∧
    out = { user_info with mapped_state := true, mapped := out.mapped } := by
  obtain ⟨d, a, ho, _⟩ := map_user_info_ok_shape ext sam_ctx default_domain
    user_info out h
  subst ho
  exact ⟨rfl, rfl, rfl, rfl, rfl, rfl⟩

/-- C17 on the account `bob@EXAMPLE` resolved to `EX\bob`. -/
theorem map_user_info_frame_witness :
    map_user_info ext0
        (some (sam0 drsuapi_DsNameStatus.DRSUAPI_DS_NAME_STATUS_OK
          ['E', 'X', sep, 'b', 'o', 'b'])) workgroup0 cred_bob =
      Result.ok (fill_user_info_mapped cred_bob ['E', 'X'] ['b', 'o', 'b']) ∧
    (fill_user_info_mapped cred_bob ['E', 'X'] ['b', 'o', 'b']).mapped_state = true ∧
    (fill_user_info_mapped cred_bob ['E', 'X'] ['b', 'o', 'b']).client =
      cred_bob.client ∧
    (fill_user_info_mapped cred_bob ['E', 'X'] ['b', 'o', 'b']).password =
      cred_bob.password :=
  ⟨by decide,
    (map_user_info_frame ext0
      (some (sam0 drsuapi_DsNameStatus.DRSUAPI_DS_NAME_STATUS_OK
        ['E', 'X', sep, 'b', 'o', 'b'])) workgroup0 cred_bob
      (fill_user_info_mapped cred_bob ['E', 'X'] ['b', 'o', 'b']) (by decide)).1,
    (map_user_info_frame ext0
      (some (sam0 drsuapi_DsNameStatus.DRSUAPI_DS_NAME_STATUS_OK
        ['E', 'X', sep, 'b', 'o', 'b'])) workgroup0 cred_bob
      (fill_user_info_mapped cred_bob ['E', 'X'] ['b', 'o', 'b']) (by decide)).2.1,
    (map_user_info_frame ext0
      (some (sam0 drsuapi_DsNameStatus.DRSUAPI_DS_NAME_STATUS_OK
        ['E', 'X', sep, 'b', 'o', 'b'])) workgroup0 cred_bob
      (fill_user_info_mapped cred_bob ['E', 'X'] ['b', 'o', 'b']) (by decide)).2.2.2.1⟩

/-- C20: with an empty client domain and the default domain `WORKGROUP`, the
name handed to the resolver is `WORKGROUP` with no backslash after it; with
the client domain `D` it is `D` followed by a backslash.  Both are resolved from
NT4 account format to NT4 account format.  The recording resolver shows its
arguments in the mapped domain. -/
theorem map_user_info_cracknames_probe_name :
    cracknames_domain_name workgroup0 cred_plain = workgroup0 ∧
    cracknames_domain_name workgroup0 cred_plain ≠ workgroup0 ++ [sep] ∧
    (map_user_info ext0 (some sam_echo) workgroup0 cred_plain).out?.map
        (fun out => out.mapped.domain_name) =
      some ('N' :: 'N' :: (workgroup0 ++ ['!'])) ∧
    (map_user_info ext0 (some sam_echo) workgroup0 cred_dbob).out?.map
        (fun out => out.mapped.domain_name) =
      some ('N' :: 'N' :: (['D', sep] ++ ['!'])) := by
  decide

/-! ## The password state engine: challenge source and frame -/

/-- The HASH block of the arm `case AUTH_PASSWORD_RESPONSE` calls
`auth_get_challenge` once, on every path. -/
theorem encrypt_user_info_hash_to_response_calls (ext : Externals)
    (auth_context : auth4_context) (to_state : auth_password_state)
    (user_info_in : auth_usersupplied_info) :
    (encrypt_user_info_hash_to_response ext auth_context to_state user_info_in).2 =
      { auth_context with calls := auth_context.calls + 1 } := by
  unfold encrypt_user_info_hash_to_response
  simp only
  split
  · rfl
  · split
    · split
      · split <;> rfl
      · split <;> rfl
    · rfl

/-- The HASH block of the arm `case AUTH_PASSWORD_RESPONSE` returns the status
of `auth_get_challenge` when that status is not OK. -/
theorem encrypt_user_info_hash_to_response_challenge_error (ext : Externals)
    (auth_context : auth4_context) (to_state : auth_password_state)
    (user_info_in : auth_usersupplied_info)
    (he : (auth_context.challenge auth_context.calls).1 ≠ NTSTATUS.NT_STATUS_OK) :
    (encrypt_user_info_hash_to_response ext auth_context to_state user_info_in).1 =
      Result.err (auth_context.challenge auth_context.calls).1 := by
  simp [encrypt_user_info_hash_to_response, auth_get_challenge, NT_STATUS_IS_OK, he]

/-- A credential stored by the arm `case AUTH_PASSWORD_HASH` is the input, or
the input with `mapped_state` and `password` assigned. -/
theorem encrypt_user_info_to_hash_frame (ext : Externals)
    (to_state : auth_password_state)
    (user_info_in out : auth_usersupplied_info)
    (h : encrypt_user_info_to_hash ext to_state user_info_in = Result.ok out) :
    out = user_info_in ∨
      ∃ pw, out = { user_info_in with
        mapped_state := mapped_state_of ext to_state, password := pw } := by
  unfold encrypt_user_info_to_hash at h
  split at h
  · split at h
    · simp only [Result.ok.injEq] at h
      exact Or.inr ⟨_, h.symm⟩
    · exact Result.noConfusion h
  · simp only [Result.ok.injEq] at h
    exact Or.inl h.symm
  · exact Result.noConfusion h

/-- A credential stored by the HASH block of the arm
`case AUTH_PASSWORD_RESPONSE` is the input with `mapped_state` and `password`
assigned. -/
theorem encrypt_user_info_hash_to_response_frame (ext : Externals)
    (auth_context : auth4_context) (to_state : auth_password_state)
    (user_info_in out : auth_usersupplied_info)
    (h : (encrypt_user_info_hash_to_response ext auth_context to_state
      user_info_in).1 = Result.ok out) :
    ∃ pw, out = { user_info_in with
      mapped_state := mapped_state_of ext to_state, password := pw } := by
  unfold encrypt_user_info_hash_to_response at h
  simp only at h
  split at h
  · exact Result.noConfusion h
  · split at h
    · split at h
      · split at h
        · exact Result.noConfusion h
        · simp only [Result.ok.injEq] at h
          exact ⟨_, h.symm⟩
      · split at h <;>
        · simp only [Result.ok.injEq] at h
          exact ⟨_, h.symm⟩
    · exact Result.noConfusion h

/-- A credential stored by `encrypt_user_info` is the input itself, or the
input with `mapped_state` set from the target stage and `password` assigned;
the names and the workstation are never assigned. -/
theorem encrypt_user_info_frame (ext : Externals)
    (auth_context : auth4_context) (to_state : auth_password_state)
    (user_info_in out : auth_usersupplied_info)
    (h : (encrypt_user_info ext auth_context to_state user_info_in).1 = Result.ok out) :
    out = user_info_in ∨
      ∃ pw, out = { user_info_in with
        mapped_state := mapped_state_of ext to_state, password := pw } := by
  unfold encrypt_user_info at h
  split at h
  · split at h
    · split at h
      · rename_i temp2 htemp
        obtain ⟨pw, hout⟩ := encrypt_user_info_hash_to_response_frame ext
          auth_context _ temp2 out h
        rcases encrypt_user_info_to_hash_frame ext _ user_info_in temp2 htemp with
          h1 | ⟨pw1, h1⟩
        · subst h1
          exact Or.inr ⟨pw, hout⟩
        · subst h1
          exact Or.inr ⟨pw, hout⟩
      · exact Result.noConfusion h
      · exact Result.noConfusion h
    · exact Or.inr (encrypt_user_info_hash_to_response_frame ext auth_context _ _ out h)
    · simp only [Result.ok.injEq] at h
      exact Or.inl h.symm
  · exact encrypt_user_info_to_hash_frame ext _ user_info_in out h
  · exact Result.noConfusion h

/-- After a PLAIN credential that stores a plaintext has been advanced to
HASH, a second call with target RESPONSE on the stored credential finds the
stage tag `AUTH_PASSWORD_PLAIN` and reads `password.plaintext` from a union
that stores the hashes: the two calls have no defined outcome. -/
theorem encrypt_user_info_two_step_plain (ext : Externals)
    (auth_context : auth4_context) (user_info_in : auth_usersupplied_info)
    (p : CString)
    (hs : user_info_in.password_state = auth_password_state.AUTH_PASSWORD_PLAIN)
    (hp : user_info_in.password = auth_password.plaintext p) :
    encrypt_user_info_two_step ext auth_context user_info_in =
      (Result.undefined, auth_context) := by
  simp [encrypt_user_info_two_step, encrypt_user_info, encrypt_user_info_to_hash,
    hs, hp]

/-! ## Claims on the password state engine: idempotence, frame, composition -/

/-- C15: a RESPONSE credential advanced to RESPONSE, and a HASH credential
advanced to HASH, give success with the input credential itself, so with the
same response bytes; the context is returned as it was, no call of the
challenge source being counted, and the outcome does not depend on any of the
primitives. -/
theorem encrypt_user_info_same_stage (ext : Externals)
    (auth_context : auth4_context) (user_info_in : auth_usersupplied_info)
    (h : user_info_in.password_state = auth_password_state.AUTH_PASSWORD_RESPONSE ∨
      user_info_in.password_state = auth_password_state.AUTH_PASSWORD_HASH) :
    encrypt_user_info ext auth_context user_info_in.password_state user_info_in =
      (Result.ok user_info_in, auth_context) ∧
    (encrypt_user_info ext auth_context user_info_in.password_state
      user_info_in).2.calls = auth_context.calls := by
  rcases h with h | h <;>
    simp [encrypt_user_info, encrypt_user_info_to_hash, h]

/-- C15 on a RESPONSE credential, with a challenge source that would fail. -/
theorem encrypt_user_info_same_stage_witness :
    cred_response.password_state = auth_password_state.AUTH_PASSWORD_RESPONSE ∧
    encrypt_user_info ext0 ctx_fail auth_password_state.AUTH_PASSWORD_RESPONSE
      cred_response = (Result.ok cred_response, ctx_fail) ∧
    (encrypt_user_info ext0 ctx_fail auth_password_state.AUTH_PASSWORD_RESPONSE
      cred_response).2.calls = ctx_fail.calls :=
  ⟨rfl, encrypt_user_info_same_stage ext0 ctx_fail cred_response (Or.inl rfl)⟩

/-- C16: a credential with `mapped_state` false advanced from PLAIN to HASH,
or from HASH to RESPONSE, is stored with `mapped_state` true: the flag is not
preserved. -/
theorem encrypt_user_info_mapped_state_changed :
    cred_plain.mapped_state = false ∧
    (encrypt_user_info ext0 (ctx0 false) auth_password_state.AUTH_PASSWORD_HASH
        cred_plain).1.out?.map (fun out => out.mapped_state) = some true ∧
    cred_hash.mapped_state = false ∧
    (encrypt_user_info ext0 (ctx0 false) auth_password_state.AUTH_PASSWORD_RESPONSE
        cred_hash).1.out?.map (fun out => out.mapped_state) = some true := by
  decide

/-- C18: for a PLAIN credential that stores a plaintext, and for a HASH
credential, a call with target RESPONSE returns the status of the challenge
source when that status is not OK, and stores nothing; the challenge source
is called once by a call with target RESPONSE, and not at all by a call with
target HASH. -/
theorem encrypt_user_info_challenge (ext : Externals)
    (auth_context : auth4_context) (user_info_in : auth_usersupplied_info)
    (hwf : (user_info_in.password_state = auth_password_state.AUTH_PASSWORD_PLAIN ∧
        ∃ p, user_info_in.password = auth_password.plaintext p) ∨
      user_info_in.password_state = auth_password_state.AUTH_PASSWORD_HASH) :
    ((auth_context.challenge auth_context.calls).1 ≠ NTSTATUS.NT_STATUS_OK →
      (encrypt_user_info ext auth_context auth_password_state.AUTH_PASSWORD_RESPONSE
        user_info_in).1 = Result.err (auth_context.challenge auth_context.calls).1) ∧
    (encrypt_user_info ext auth_context auth_password_state.AUTH_PASSWORD_RESPONSE
      user_info_in).2.calls = auth_context.calls + 1 ∧
    (encrypt_user_info ext auth_context auth_password_state.AUTH_PASSWORD_HASH
      user_info_in).2 = auth_context := by
  rcases hwf with ⟨hs, p, hp⟩ | hs
  · have hr : encrypt_user_info ext auth_context
        auth_password_state.AUTH_PASSWORD_RESPONSE user_info_in =
        encrypt_user_info_hash_to_response ext auth_context
          auth_password_state.AUTH_PASSWORD_RESPONSE
          { user_info_in with
            mapped_state := mapped_state_of ext auth_password_state.AUTH_PASSWORD_HASH
            password := auth_password.hash
              (if (ext.E_deshash p).1 then some { hash := (ext.E_deshash p).2 } else none)
              (some { hash := ext.E_md4hash p }) } := by
      simp only [encrypt_user_info, hs,
        encrypt_user_info_to_hash_plain ext _ user_info_in p hs hp]
    rw [hr]
    refine ⟨fun he => encrypt_user_info_hash_to_response_challenge_error ext
      auth_context _ _ he, ?_, rfl⟩
    rw [encrypt_user_info_hash_to_response_calls]
  · have hr : encrypt_user_info ext auth_context
        auth_password_state.AUTH_PASSWORD_RESPONSE user_info_in =
        encrypt_user_info_hash_to_response ext auth_context
          auth_password_state.AUTH_PASSWORD_RESPONSE user_info_in := by
      simp only [encrypt_user_info, hs]
    rw [hr]
    refine ⟨fun he => encrypt_user_info_hash_to_response_challenge_error ext
      auth_context _ _ he, ?_, rfl⟩
    rw [encrypt_user_info_hash_to_response_calls]

/-- C18 on a PLAIN credential and the challenge source
`auth_get_challenge_not_implemented`. -/
theorem encrypt_user_info_challenge_witness :
    cred_plain.password_state = auth_password_state.AUTH_PASSWORD_PLAIN ∧
    (ctx_fail.challenge ctx_fail.calls).1 = NTSTATUS.NT_STATUS_NOT_IMPLEMENTED ∧
    (encrypt_user_info ext0 ctx_fail auth_password_state.AUTH_PASSWORD_RESPONSE
      cred_plain).1 = Result.err NTSTATUS.NT_STATUS_NOT_IMPLEMENTED ∧
    (encrypt_user_info ext0 ctx_fail auth_password_state.AUTH_PASSWORD_RESPONSE
      cred_plain).2.calls = ctx_fail.calls + 1 ∧
    (encrypt_user_info ext0 ctx_fail auth_password_state.AUTH_PASSWORD_HASH
      cred_plain).2 = ctx_fail :=
  ⟨rfl, rfl,
    (encrypt_user_info_challenge ext0 ctx_fail cred_plain
      (Or.inl ⟨rfl, ['p', 'w'], rfl⟩)).1 (by decide),
    (encrypt_user_info_challenge ext0 ctx_fail cred_plain
      (Or.inl ⟨rfl, ['p', 'w'], rfl⟩)).2⟩

/-- C19: on the PLAIN credential with plaintext `pw` the single call with
target RESPONSE succeeds, with both responses computed from the NT hash of
the plaintext, while the call with target HASH followed by the call with
target RESPONSE on its result has no defined outcome: the two differ. -/
theorem encrypt_user_info_two_step_differs :
    response_nt (encrypt_user_info ext0 (ctx0 false)
        auth_password_state.AUTH_PASSWORD_RESPONSE cred_plain).1 =
      some (ext0.SMBOWFencrypt (ext0.E_md4hash ['p', 'w']) [1, 2, 3, 4, 5, 6, 7, 8]) ∧
    (encrypt_user_info_two_step ext0 (ctx0 false) cred_plain).1 = Result.undefined ∧
    (encrypt_user_info ext0 (ctx0 false)
        auth_password_state.AUTH_PASSWORD_RESPONSE cred_plain).1 ≠
      (encrypt_user_info_two_step ext0 (ctx0 false) cred_plain).1 := by
  decide

end AuthUtil
